import Mathlib

/-!
# Verification of `extras/ci/analytics/ci_health.py`

A shallow embedding of the CI health-page generator. Python dicts parsed
from JSON are modelled as Lean structures whose `Option` fields record key
presence (`d.get(k, default)` becomes `field.getD default`); Python dict
values built by the program itself are modelled as association lists in
insertion order, matching Python's dict-ordering guarantee. Fallible
collaborators (the status subprocess, the REST API) are modelled by their
observable outcome (exit code / parse success / error flag), since the
script only branches on those observations.
-/

namespace CIHealth

/-- Busy/total counters for one runner group, as written by
`record_snapshot` (ci_health.py line 116): both start at 0 and are only
ever incremented, hence `Nat`. -/
structure GroupCounts where
  busy : Nat
  total : Nat
deriving DecidableEq, Repr

/-- Queued/running counters for one entry of `queue_by_group`
(ci_health.py lines 126-129). JSON integers, possibly absent (default 0);
modelled as `Int` since the source never constrains their sign. -/
structure QueueCounts where
  queued : Int
  running : Int
deriving DecidableEq, Repr

/-- One snapshot object, with the fields `record_snapshot` writes
(ci_health.py lines 102-130). Records loaded back from the JSONL file may
lack fields; a missing counter is modelled by its `.get` default (0), a
missing `runner_groups`/`queue_by_group` by `[]`, and a missing
`timestamp` by `""` (the default used at line 158). -/
structure Snap where
  timestamp : String
  jobs_queued : Int := 0
  jobs_running : Int := 0
  runs_queued : Int := 0
  runs_in_progress : Int := 0
  runner_groups : List (String × GroupCounts) := []
  queue_by_group : List (String × QueueCounts) := []
deriving DecidableEq, Repr

/-- The `summary` sub-object of the queue-status document
(ci_health.py lines 105-109); each counter is read with `.get(_, 0)`,
so each field is optional. -/
structure Summary where
  jobs_queued : Option Int := none
  jobs_running : Option Int := none
  runs_queued : Option Int := none
  runs_in_progress : Option Int := none
deriving DecidableEq, Repr

/-- A runner's current-job descriptor (ci_health.py lines 286-292): each
field is read with `.get(_, "")`, so a missing key and an empty string are
indistinguishable to the program and both are modelled as `""`. The key
the source reads for the link is `html_url`. -/
structure Job where
  name : String := ""
  branch : String := ""
  html_url : String := ""
deriving DecidableEq, Repr

/-- One element of `self_hosted_runners` (ci_health.py lines 113-120,
267-294): `group` defaults to "Other" when absent, `status` to `None`,
`busy` is used only for truthiness (absent = falsy), and `job` is `none`
both when the key is absent and when it is a falsy (empty) object, the two
cases `if job:` cannot distinguish. -/
structure Runner where
  name : Option String := none
  group : Option String := none
  status : Option String := none
  busy : Bool := false
  job : Option Job := none
deriving DecidableEq, Repr

/-- One element of `queue_by_group` (ci_health.py lines 125-129): `name`
is read with direct indexing `g["name"]` (required), the counters with
`.get(_, 0)`. -/
structure QueueGroup where
  name : String
  queued : Option Int := none
  running : Option Int := none
deriving DecidableEq, Repr

/-- One element of `longest_waiting_jobs` (ci_health.py lines 373-384).
`wait_seconds` is a non-negative number of seconds (`Nat`). -/
structure WaitingJob where
  wait_seconds : Option Nat := none
  name : Option String := none
  branch : Option String := none
  html_url : Option String := none
deriving DecidableEq, Repr

/-- The queue-status document parsed from the status subprocess's JSON
output. Every field the script reads is optional (read via `.get`);
`extraKeys` stands for any keys of the JSON object outside the schema,
which the script never reads but which count for Python truthiness of
the document (`if not queue_data:` at line 98). -/
structure QueueData where
  summary : Option Summary := none
  self_hosted_runners : Option (List Runner) := none
  queue_by_group : Option (List QueueGroup) := none
  longest_waiting_jobs : Option (List WaitingJob) := none
  runners_available : Option Bool := none
  extraKeys : List String := []
deriving DecidableEq, Repr

/-- Python truthiness of the parsed document: a dict is falsy iff it has
no keys at all. -/
def QueueData.isEmptyDict (d : QueueData) : Bool :=
  d.summary.isNone && d.self_hosted_runners.isNone && d.queue_by_group.isNone
    && d.longest_waiting_jobs.isNone && d.runners_available.isNone
    && d.extraKeys.isEmpty

/-- In-place update of the value stored under key `g` of an association
list, leaving every other entry alone (Python `groups[g]["total"] += 1`
style mutation). -/
def updateGroup (gs : List (String × GroupCounts)) (g : String)
    (f : GroupCounts → GroupCounts) : List (String × GroupCounts) :=
  gs.map (fun p => if p.1 = g then (p.1, f p.2) else p)

/-- One iteration of the runner-aggregation loop of `record_snapshot`
(ci_health.py lines 113-120): the runner's group key is created with
zero counters if absent — before the status check — and then, only when
the status is exactly "online", `total` is incremented and, if the runner
is busy, `busy` as well. -/
def runnerStep (gs : List (String × GroupCounts)) (r : Runner) :
    List (String × GroupCounts) :=
  let g := r.group.getD "Other"
  let gs' := if gs.any (fun p => p.1 = g) then gs else gs ++ [(g, ⟨0, 0⟩)]
  if r.status = some "online" then
    updateGroup gs' g (fun c =>
      ⟨if r.busy then c.busy + 1 else c.busy, c.total + 1⟩)
  else gs'

/-- The `runner_groups` aggregate of a snapshot (ci_health.py
lines 112-121). -/
def runnerGroupsOf (runners : List Runner) : List (String × GroupCounts) :=
  runners.foldl runnerStep []

/-- One iteration of the `queue_by_group` loop (ci_health.py
lines 124-129): Python dict assignment keyed by `g["name"]` — an existing
key is overwritten in place, a new key is appended. -/
def queueStep (qs : List (String × QueueCounts)) (g : QueueGroup) :
    List (String × QueueCounts) :=
  let v : QueueCounts := ⟨g.queued.getD 0, g.running.getD 0⟩
  if qs.any (fun p => p.1 = g.name) then
    qs.map (fun p => if p.1 = g.name then (p.1, v) else p)
  else qs ++ [(g.name, v)]

/-- The `queue_by_group` aggregate of a snapshot (ci_health.py
lines 124-130). -/
def queueGroupsOf (gs : List QueueGroup) : List (String × QueueCounts) :=
  gs.foldl queueStep []

/-- Function `record_snapshot` (ci_health.py lines 96-136), with the current
timestamp string passed in and the file append made explicit in the
result: `none` means the function returned without appending a line
(`if not queue_data: return`, which fires both for `None` and for a
falsy empty document), `some s` means exactly the line for `s` was
appended. -/
def record_snapshot (queue_data : Option QueueData) (ts : String) :
    Option Snap :=
  match queue_data with
  | none => none
  | some d =>
    if d.isEmptyDict then none
    else
      let summary := d.summary.getD {}
      some
        { timestamp := ts
          jobs_queued := summary.jobs_queued.getD 0
          jobs_running := summary.jobs_running.getD 0
          runs_queued := summary.runs_queued.getD 0
          runs_in_progress := summary.runs_in_progress.getD 0
          runner_groups := runnerGroupsOf (d.self_hosted_runners.getD [])
          queue_by_group := queueGroupsOf (d.queue_by_group.getD []) }

/-- One physical line of the snapshots JSONL file, as seen by
`load_snapshots` after `line.strip()`: blank (skipped), not valid JSON
(skipped by the `except JSONDecodeError: continue` handler), or a parsed
snapshot record. -/
inductive LogLine where
  | blank : LogLine
  | corrupt (raw : String) : LogLine
  | record (s : Snap) : LogLine
deriving DecidableEq, Repr

/-- The parsed snapshot carried by a line, if any. -/
def LogLine.parsed : LogLine → Option Snap
  | .blank => none
  | .corrupt _ => none
  | .record s => some s

/-- The loop body of `load_snapshots` (ci_health.py lines 152-161):
blank and unparseable lines are skipped, and a parsed record is kept iff
its timestamp string (default `""`) is `>=` the cutoff string. String
comparison is lexicographic by code point in both Python and Lean. -/
def loadStep (cutoff : String) (acc : List Snap) (l : LogLine) : List Snap :=
  match l with
  | .blank => acc
  | .corrupt _ => acc
  | .record s => if cutoff ≤ s.timestamp then acc ++ [s] else acc

/-- Function `load_snapshots` over the lines of an existing log file
(ci_health.py lines 150-162). The cutoff string — computed at lines
145-148 as `(now - timedelta(hours=hours)).strftime("%Y-%m-%dT%H:%M:%SZ")`
— is passed in, the datetime arithmetic being external to the embedding. -/
def load_snapshots (lines : List LogLine) (cutoff : String) : List Snap :=
  lines.foldl (loadStep cutoff) []

/-- Function `load_snapshots` including the existence check (ci_health.py
lines 141-143): `none` models a missing log file. -/
def load_snapshots_file (file : Option (List LogLine)) (cutoff : String) :
    List Snap :=
  match file with
  | none => []
  | some lines => load_snapshots lines cutoff

/-- Python `"%02d" % n`: decimal with a leading zero for single digits. -/
def pad2 (n : Nat) : String :=
  if n < 10 then "0" ++ toString n else toString n

/-- The wait-time formatter inlined in `generate_health_html`
(ci_health.py lines 374-380): hours+minutes at or above 3600 s,
minutes+seconds at or above 60 s, bare seconds below. -/
def formatWait (wait_s : Nat) : String :=
  if wait_s ≥ 3600 then
    toString (wait_s / 3600) ++ "h " ++ pad2 (wait_s % 3600 / 60) ++ "m"
  else if wait_s ≥ 60 then
    toString (wait_s / 60) ++ "m " ++ pad2 (wait_s % 60) ++ "s"
  else
    toString wait_s ++ "s"

/-- The `actor` sub-object of a workflow-run record
(ci_health.py line 91): only `login` is read, with default `""`. -/
structure Actor where
  login : Option String := none
deriving DecidableEq, Repr

/-- One workflow-run record returned by the REST API listing
(ci_health.py lines 82-92); every field is read through `.get`.
`actor` is `none` both for a missing key and a `None`/falsy value
(the source guards with `run.get("actor") or {}`). -/
structure Run where
  name : Option String := none
  conclusion : Option String := none
  head_branch : Option String := none
  html_url : Option String := none
  created_at : Option String := none
  actor : Option Actor := none
deriving DecidableEq, Repr

/-- A failure record as built at ci_health.py lines 87-92. -/
structure Failure where
  branch : String
  url : String
  created_at : String
  actor : String
deriving DecidableEq, Repr

/-- The dict literal of ci_health.py lines 87-92. -/
def mkFailure (run : Run) : Failure :=
  { branch := run.head_branch.getD ""
    url := run.html_url.getD ""
    created_at := run.created_at.getD ""
    actor := ((run.actor.getD {}).login).getD "" }

/-- Function `fetch_recent_failures` (ci_health.py lines 68-93), applied to the
observable outcome of `gh_api_list`: a possibly-`None` list of run
records and a possibly-present error. On error it returns `[]`; otherwise
it walks the runs in order (the loop body is `failureStep`, mirroring the
two `continue` guards of lines 83-86), keeps those named "CI" that
concluded "failure", and truncates to the first 10. -/
def failureStep (acc : List Failure) (run : Run) : List Failure :=
  if run.name ≠ some "CI" then acc
  else if run.conclusion ≠ some "failure" then acc
  else acc ++ [mkFailure run]

def fetch_recent_failures (runs : Option (List Run)) (err : Option String) :
    List Failure :=
  match err with
  | some _ => []
  | none =>
    let failures := (runs.getD []).foldl failureStep []
    failures.take 10

/-- The observable outcome of the `subprocess.run` call of
`fetch_queue_status` (ci_health.py line 57): the exit code, the stderr
text (quoted in the warning), and the result of `json.loads` on stdout
(`none` models a `JSONDecodeError`). -/
structure SubprocResult where
  returncode : Int
  stderr : String
  stdoutJson : Option QueueData
deriving DecidableEq, Repr

/-- Function `fetch_queue_status` (ci_health.py lines 50-65): the parsed document
(or `none`) paired with the warning lines printed to the diagnostic
stream. Non-zero exit and undecodable stdout each yield `none` plus one
warning; success yields the document and no warning. -/
def fetch_queue_status (res : SubprocResult) :
    Option QueueData × List String :=
  if res.returncode ≠ 0 then
    (none, ["Warning: ci-queue-status.py failed: " ++ res.stderr])
  else
    match res.stdoutJson with
    | some doc => (some doc, [])
    | none => (none, ["Warning: invalid JSON from ci-queue-status.py"])

/-- The status badge of a runner row (ci_health.py line 283). -/
def stateBadge (busy : Bool) : String :=
  if busy then "<span style=\"color:#0d6efd\">BUSY</span>"
  else "<span style=\"color:#28a745\">IDLE</span>"

/-- The current-job label (ci_health.py line 291): name plus
parenthesised branch when the branch string is truthy (non-empty). -/
def jobLabel (j : Job) : String :=
  if j.branch ≠ "" then j.name ++ " (" ++ j.branch ++ ")" else j.name

/-- The current-job cell (ci_health.py lines 285-292): empty when there
is no (truthy) job object; otherwise the label, wrapped in an anchor to
the job's `html_url` exactly when that url is truthy (non-empty). -/
def jobInfo (job : Option Job) : String :=
  match job with
  | none => ""
  | some j =>
    if j.html_url ≠ "" then
      "<a href=\"" ++ j.html_url ++ "\" target=\"_blank\">" ++ jobLabel j
        ++ "</a>"
    else jobLabel j

/-- One row of the GCP GPU runner-status table (ci_health.py
lines 280-294). -/
def renderRunnerRow (r : Runner) : String :=
  "<tr><td>" ++ r.name.getD "" ++ "</td><td>" ++ stateBadge r.busy
    ++ "</td><td>" ++ jobInfo r.job ++ "</td></tr>\n"

/-- The two GCP GPU runner groups (ci_health.py lines 173 and 261). -/
def gcpVmGroups : List String := ["Linux GPU (GCP)", "Windows GPU (GCP)"]

/-- Membership test used to partition runners (ci_health.py line 269). -/
def isGcpGpuGroup (g : String) : Bool :=
  g = "Linux GPU (GCP)" || g = "Windows GPU (GCP)"

/-- ci_health.py line 30. -/
def CHARTJS_CDN : String := "https://cdn.jsdelivr.net/npm/chart.js"

/-- Python slice `s[a:b]` by code points. -/
def strSlice (s : String) (a b : Nat) : String :=
  String.mk ((s.data.drop a).take (b - a))

/-- The shared x-axis labels (ci_health.py line 170):
`s["timestamp"][11:16]`, the HH:MM substring. -/
def chartLabels (snaps : List Snap) : List String :=
  snaps.map (fun s => strSlice s.timestamp 11 16)

/-- The per-snapshot online total of one runner group (ci_health.py
line 179): `s.get("runner_groups", {}).get(g, {}).get("total", 0)`. -/
def runnerSeries (snaps : List Snap) (g : String) : List Nat :=
  snaps.map (fun s => ((s.runner_groups.lookup g).map GroupCounts.total).getD 0)

/-- The fixed per-group display colors (ci_health.py line 174); the dict
is only ever indexed at the two GCP group names. -/
def palette (g : String) : String :=
  if g = "Linux GPU (GCP)" then "#0d6efd"
  else if g = "Windows GPU (GCP)" then "#28a745"
  else ""

/-- Serialization `json.dumps` of a string none of whose characters needs escaping
(all strings serialized here are group names, colors and HH:MM labels). -/
def jsonStr (s : String) : String := "\"" ++ s ++ "\""

/-- Serialization `json.dumps` of a list of such strings (default ", " separator). -/
def jsonStrList (l : List String) : String :=
  "[" ++ String.intercalate ", " (l.map jsonStr) ++ "]"

/-- Serialization `json.dumps` of a list of non-negative integers. -/
def jsonNatList (l : List Nat) : String :=
  "[" ++ String.intercalate ", " (l.map toString) ++ "]"

/-- Serialization `json.dumps` of a list of integers. -/
def jsonIntList (l : List Int) : String :=
  "[" ++ String.intercalate ", " (l.map toString) ++ "]"

/-- Serialization `json.dumps` of one dataset dict of ci_health.py lines 180-187,
keys in insertion order. -/
def dumpDataset (g : String) (data : List Nat) : String :=
  "\x7b\"label\": " ++ jsonStr g ++ ", \"data\": " ++ jsonNatList data
    ++ ", \"borderColor\": " ++ jsonStr (palette g)
    ++ ", \"backgroundColor\": " ++ jsonStr (palette g ++ "55")
    ++ ", \"fill\": true, \"tension\": 0.3\x7d"

/-- Serialization `json.dumps(datasets)` for the runner-history chart (ci_health.py
lines 176-187): one dataset per fixed GCP VM group, in order. -/
def dumpDatasets (snaps : List Snap) : String :=
  "[" ++ String.intercalate ", "
    (gcpVmGroups.map (fun g => dumpDataset g (runnerSeries snaps g))) ++ "]"

/-- Literal segments of the f-string of ci_health.py lines 197-252
(braces and apostrophes written with \x escapes); segment 1 runs up to
the first `labels:` interpolation. -/
def chartSeg1 : String :=
  "\n<div style=\"position:relative;width:100%;max-width:1200px;margin:20px 0\">\n  <canvas id=\"runnerHistory\"></canvas>\n</div>\n<div style=\"position:relative;width:100%;max-width:1200px;margin:20px 0\">\n  <canvas id=\"workflowHistory\"></canvas>\n</div>\n<div style=\"position:relative;width:100%;max-width:1200px;margin:20px 0\">\n  <canvas id=\"queueHistory\"></canvas>\n</div>\n<script src=\""
    ++ CHARTJS_CDN
    ++ "\"></script>\n<script>\nnew Chart(document.getElementById(\x27runnerHistory\x27).getContext(\x272d\x27), \x7b\n  type: \x27line\x27,\n  data: \x7b\n    labels: "

/-- Between the first `labels:` and `datasets:` interpolations. -/
def chartSeg2 : String := ",\n    datasets: "

/-- From the first chart's options through the second `labels:`. -/
def chartSeg3 : String :=
  "\n  \x7d,\n  options: \x7b\n    responsive: true,\n    scales: \x7by: \x7bmin: 0, stacked: true, title: \x7bdisplay: true, text: \x27GCP VMs Online\x27\x7d\x7d\x7d,\n    plugins: \x7btitle: \x7bdisplay: true, text: \x27GCP Runner VMs (24h)\x27\x7d\x7d\n  \x7d\n\x7d);\nnew Chart(document.getElementById(\x27workflowHistory\x27).getContext(\x272d\x27), \x7b\n  type: \x27line\x27,\n  data: \x7b\n    labels: "

/-- Up to the `Runs In Progress` data interpolation. -/
def chartSeg4 : String :=
  ",\n    datasets: [\n      \x7blabel: \x27Runs In Progress\x27, data: "

/-- Between the two workflow-series data interpolations. -/
def chartSeg5 : String :=
  ", borderColor: \x27#0d6efd\x27, fill: true, backgroundColor: \x27rgba(13,110,253,0.1)\x27, tension: 0.3\x7d,\n      \x7blabel: \x27Runs Queued\x27, data: "

/-- From the workflow chart's options through the third `labels:`. -/
def chartSeg6 : String :=
  ", borderColor: \x27#ffc107\x27, fill: true, backgroundColor: \x27rgba(255,193,7,0.1)\x27, tension: 0.3\x7d\n    ]\n  \x7d,\n  options: \x7b\n    responsive: true,\n    scales: \x7by: \x7bmin: 0, title: \x7bdisplay: true, text: \x27Workflow Runs\x27\x7d\x7d\x7d,\n    plugins: \x7btitle: \x7bdisplay: true, text: \x27Active CI Workflows (24h)\x27\x7d\x7d\n  \x7d\n\x7d);\nnew Chart(document.getElementById(\x27queueHistory\x27).getContext(\x272d\x27), \x7b\n  type: \x27line\x27,\n  data: \x7b\n    labels: "

/-- Up to the `Jobs Queued` data interpolation. -/
def chartSeg7 : String :=
  ",\n    datasets: [\n      \x7blabel: \x27Jobs Queued\x27, data: "

/-- Between the two queue-series data interpolations. -/
def chartSeg8 : String :=
  ", borderColor: \x27#dc3545\x27, fill: true, backgroundColor: \x27rgba(220,53,69,0.1)\x27, tension: 0.3\x7d,\n      \x7blabel: \x27Jobs Running\x27, data: "

/-- The tail of the f-string. -/
def chartSeg9 : String :=
  ", borderColor: \x27#0d6efd\x27, fill: false, tension: 0.3\x7d\n    ]\n  \x7d,\n  options: \x7b\n    responsive: true,\n    scales: \x7by: \x7bmin: 0, title: \x7bdisplay: true, text: \x27Jobs\x27\x7d\x7d\x7d,\n    plugins: \x7btitle: \x7bdisplay: true, text: \x27Queue Depth (24h)\x27\x7d\x7d\n  \x7d\n\x7d);\n</script>\n"

/-- The placeholder returned for an empty snapshot list
(ci_health.py line 168). -/
def noHistoryPlaceholder : String :=
  "<p>No history data yet. Snapshots accumulate every 15 minutes.</p>"

/-- Function `build_history_chart` (ci_health.py lines 165-252): placeholder on an
empty list, otherwise the chart HTML with the label list and the six data
series interpolated. -/
def build_history_chart (snapshots : List Snap) : String :=
  if snapshots.isEmpty then noHistoryPlaceholder
  else
    let labels := jsonStrList (chartLabels snapshots)
    chartSeg1 ++ labels ++ chartSeg2 ++ dumpDatasets snapshots
      ++ chartSeg3 ++ labels
      ++ chartSeg4 ++ jsonIntList (snapshots.map Snap.runs_in_progress)
      ++ chartSeg5 ++ jsonIntList (snapshots.map Snap.runs_queued)
      ++ chartSeg6 ++ labels
      ++ chartSeg7 ++ jsonIntList (snapshots.map Snap.jobs_queued)
      ++ chartSeg8 ++ jsonIntList (snapshots.map Snap.jobs_running)
      ++ chartSeg9

/-- Concrete queue-status document whose single self-hosted runner is
offline; input of the C1 counterexample and witness. -/
def offlineDoc : QueueData :=
  { self_hosted_runners :=
      some [{ name := some "r1", status := some "offline" }] }

/-- Concrete queue-status document with two online runners in one group,
one of them busy; input of the C9 witness. -/
def busyDoc : QueueData :=
  { self_hosted_runners :=
      some [{ name := some "a", group := some "Linux GPU (GCP)",
              status := some "online", busy := true },
            { name := some "b", group := some "Linux GPU (GCP)",
              status := some "online", busy := false }] }

/-- Concrete current-job descriptor with a url; input of the C2 witness. -/
def linkedJob : Job :=
  { name := "build", branch := "main", html_url := "https://x/1" }

/-- Concrete current-job descriptor without a url. -/
def unlinkedJob : Job := { name := "build", branch := "main" }

/-- Concrete online GCP GPU runner working on `linkedJob`. -/
def linkedRunner : Runner :=
  { name := some "gpu-1", group := some "Linux GPU (GCP)",
    status := some "online", busy := true, job := some linkedJob }

/-- Concrete online GCP GPU runner working on `unlinkedJob`. -/
def unlinkedRunner : Runner :=
  { name := some "gpu-2", group := some "Windows GPU (GCP)",
    status := some "online", busy := false, job := some unlinkedJob }

/-! ## Theorems -/

/-- C10: `record_snapshot` treats an empty-but-present queue-status
document (the empty JSON object) exactly like an absent one: in both
cases it returns without appending any line to the snapshot log (the
`if not queue_data: return` guard fires on falsy values, and an empty
dict is falsy), rather than writing an all-zero snapshot. -/
theorem record_snapshot_empty_doc_like_none (ts : String) :
    record_snapshot (some {}) ts = none ∧ record_snapshot none ts = none :=
  ⟨rfl, rfl⟩

/-- C7: `fetch_queue_status` returns the parsed document on zero exit
with valid JSON (and prints nothing); on non-zero exit, or when standard
output fails to decode, it returns `none` and prints one warning to the
diagnostic stream — it never raises to the caller (the embedding is a
total function). -/
theorem fetch_queue_status_spec (res : SubprocResult) :
    (res.returncode = 0 → ∀ d, res.stdoutJson = some d →
      fetch_queue_status res = (some d, []))
    ∧ (res.returncode ≠ 0 →
      (fetch_queue_status res).1 = none ∧ (fetch_queue_status res).2 ≠ [])
    ∧ (res.stdoutJson = none →
      (fetch_queue_status res).1 = none ∧ (fetch_queue_status res).2 ≠ []) := by
  refine ⟨fun h0 d hd => ?_, fun hne => ?_, fun hj => ?_⟩
  · simp [fetch_queue_status, h0, hd]
  · simp [fetch_queue_status, hne]
  · rcases Decidable.em (res.returncode = 0) with h0 | h0
    · simp [fetch_queue_status, h0, hj]
    · simp [fetch_queue_status, h0]

/-- Witness for C7 at concrete subprocess outcomes. -/
theorem fetch_queue_status_spec_witness :
    fetch_queue_status ⟨0, "", some {}⟩ = (some {}, [])
    ∧ (fetch_queue_status ⟨1, "boom", none⟩).1 = none
    ∧ (fetch_queue_status ⟨1, "boom", none⟩).2 ≠ [] := by
  refine ⟨(fetch_queue_status_spec ⟨0, "", some {}⟩).1 rfl {} rfl, ?_, ?_⟩
  · exact ((fetch_queue_status_spec ⟨1, "boom", none⟩).2.1 (by decide)).1
  · exact ((fetch_queue_status_spec ⟨1, "boom", none⟩).2.1 (by decide)).2

/-- C5: the wait-time formatter produces hours+zero-padded minutes at or
above 3600 s, minutes+zero-padded seconds at or above 60 s, bare seconds
below; in particular 45 ↦ "45s", 125 ↦ "2m 05s", 7384 ↦ "2h 03m". -/
theorem formatWait_spec :
    formatWait 45 = "45s" ∧ formatWait 125 = "2m 05s"
    ∧ formatWait 7384 = "2h 03m"
    ∧ (∀ n : Nat, 3600 ≤ n →
        formatWait n = toString (n / 3600) ++ "h " ++ pad2 (n % 3600 / 60) ++ "m")
    ∧ (∀ n : Nat, 60 ≤ n → n < 3600 →
        formatWait n = toString (n / 60) ++ "m " ++ pad2 (n % 60) ++ "s")
    ∧ (∀ n : Nat, n < 60 → formatWait n = toString n ++ "s") := by
  refine ⟨by decide, by decide, by decide, fun n h => ?_, fun n h60 h36 => ?_,
    fun n h => ?_⟩
  · simp [formatWait, h]
  · simp [formatWait, h60, Nat.not_le_of_lt h36]
  · have h36 : n < 3600 := lt_of_lt_of_le h (by norm_num)
    simp [formatWait, Nat.not_le_of_lt h, Nat.not_le_of_lt h36]

/-- Witness for C5 at concrete inputs in each magnitude band. -/
theorem formatWait_spec_witness :
    formatWait 7200 = toString (7200 / 3600) ++ "h " ++ pad2 (7200 % 3600 / 60) ++ "m"
    ∧ formatWait 90 = toString (90 / 60) ++ "m " ++ pad2 (90 % 60) ++ "s"
    ∧ formatWait 10 = toString 10 ++ "s" :=
  ⟨formatWait_spec.2.2.2.1 7200 (by decide),
   formatWait_spec.2.2.2.2.1 90 (by decide) (by decide),
   formatWait_spec.2.2.2.2.2 10 (by decide)⟩

/-- The accumulator loop of `load_snapshots` is filtering: it appends, in
file order, exactly the parsed records whose timestamp passes the cutoff
comparison. -/
theorem loadStep_foldl (cutoff : String) (lines : List LogLine)
    (acc : List Snap) :
    lines.foldl (loadStep cutoff) acc
      = acc ++ (lines.filterMap LogLine.parsed).filter
          (fun s => decide (cutoff ≤ s.timestamp)) := by
  induction lines generalizing acc with
  | nil => simp
  | cons l rest ih =>
    cases l with
    | blank => simpa [loadStep, LogLine.parsed] using ih acc
    | corrupt raw => simpa [loadStep, LogLine.parsed] using ih acc
    | record s =>
      by_cases h : cutoff ≤ s.timestamp
      · have h' := h
        simp only [String.le_iff_toList_le, String.toList] at h'
        simp [loadStep, LogLine.parsed, h, h', ih, List.filter_cons]
      · have h' := h
        simp only [String.le_iff_toList_le, String.toList] at h'
        simp [loadStep, LogLine.parsed, h, h', ih, List.filter_cons]

/-- C3: `load_snapshots` returns exactly the parseable lines whose
timestamp string is lexicographically ≥ the cutoff string (the ISO-8601
string for now minus the window), in file order; a missing log file
yields `[]`. Concretely, of a 30-hours-old and a 1-hour-old entry around
a now-minus-24-hours cutoff, only the latter survives. -/
theorem load_snapshots_spec (cutoff : String) :
    load_snapshots_file none cutoff = []
    ∧ (∀ lines : List LogLine,
        load_snapshots lines cutoff
          = (lines.filterMap LogLine.parsed).filter
              (fun s => decide (cutoff ≤ s.timestamp)))
    ∧ load_snapshots
        [LogLine.record { timestamp := "2025-06-01T06:00:00Z" },
         LogLine.record { timestamp := "2025-06-02T11:00:00Z" }]
        "2025-06-01T12:00:00Z"
      = [{ timestamp := "2025-06-02T11:00:00Z" }] := by
  refine ⟨rfl, fun lines => ?_, ?_⟩
  · simpa using loadStep_foldl cutoff lines []
  · have hA : ¬ (("2025-06-01T12:00:00Z" : String) ≤ "2025-06-01T06:00:00Z") := by
      rw [String.le_iff_toList_le]; decide
    have hB : (("2025-06-01T12:00:00Z" : String) ≤ "2025-06-02T11:00:00Z") := by
      rw [String.le_iff_toList_le]; decide
    simp [load_snapshots, loadStep, hA, hB]

/-- C4: a line that fails to parse as JSON contributes nothing and aborts
nothing (the embedding is total, mirroring the `except ... continue`
handler): loading splits around it, and a corrupt line between two valid
in-window snapshot lines yields exactly those two snapshots. -/
theorem load_snapshots_corrupt (l1 l2 : List LogLine) (raw : String)
    (cutoff : String) (s1 s2 : Snap)
    (h1 : cutoff ≤ s1.timestamp) (h2 : cutoff ≤ s2.timestamp) :
    load_snapshots (l1 ++ LogLine.corrupt raw :: l2) cutoff
      = load_snapshots l1 cutoff ++ load_snapshots l2 cutoff
    ∧ load_snapshots
        [LogLine.record s1, LogLine.corrupt raw, LogLine.record s2] cutoff
      = [s1, s2] := by
  constructor
  · simp [load_snapshots, loadStep_foldl, loadStep, LogLine.parsed]
  · simp [load_snapshots, loadStep, h1, h2]

/-- Witness for C4 at a concrete log file. -/
theorem load_snapshots_corrupt_witness :
    load_snapshots
        [LogLine.record { timestamp := "2025-06-02T10:00:00Z" },
         LogLine.corrupt "bad \x7b json",
         LogLine.record { timestamp := "2025-06-02T11:00:00Z" }]
        "2025-06-01T12:00:00Z"
      = [{ timestamp := "2025-06-02T10:00:00Z" },
         { timestamp := "2025-06-02T11:00:00Z" }] :=
  (load_snapshots_corrupt [] [] "bad \x7b json" "2025-06-01T12:00:00Z"
      { timestamp := "2025-06-02T10:00:00Z" }
      { timestamp := "2025-06-02T11:00:00Z" }
      (by rw [String.le_iff_toList_le]; decide)
      (by rw [String.le_iff_toList_le]; decide)).2

/-- The failure-collection loop is filtering followed by mapping, in the
API's original order. -/
theorem failureStep_foldl (runs : List Run) (acc : List Failure) :
    runs.foldl failureStep acc
      = acc ++ (runs.filter
          (fun r => r.name == some "CI" && r.conclusion == some "failure")).map
            mkFailure := by
  induction runs generalizing acc with
  | nil => simp
  | cons r rest ih =>
    by_cases h1 : r.name = some "CI"
    · by_cases h2 : r.conclusion = some "failure"
      · simp [failureStep, h1, h2, ih, List.filter_cons]
      · simp [failureStep, h1, h2, ih, List.filter_cons]
    · simp [failureStep, h1, ih, List.filter_cons]

/-- C6: `fetch_recent_failures` returns at most 10 records; they are
exactly the first 10 of the runs named "CI" with conclusion "failure",
mapped to failure records in the API's original order; and an API error
yields `[]` (and, the embedding being total, never raises). -/
theorem fetch_recent_failures_spec (runs : Option (List Run))
    (err : Option String) :
    (fetch_recent_failures runs err).length ≤ 10
    ∧ (∀ e, err = some e → fetch_recent_failures runs err = [])
    ∧ (err = none →
        fetch_recent_failures runs err
          = (((runs.getD []).filter
              (fun r => r.name == some "CI" && r.conclusion == some "failure")).map
                mkFailure).take 10) := by
  have hnone : ∀ rs : Option (List Run), fetch_recent_failures rs none
      = (((rs.getD []).filter
          (fun r => r.name == some "CI" && r.conclusion == some "failure")).map
            mkFailure).take 10 := by
    intro rs
    simp [fetch_recent_failures, failureStep_foldl]
  refine ⟨?_, fun e he => by simp [fetch_recent_failures, he], fun he => ?_⟩
  · cases err with
    | some e => simp [fetch_recent_failures]
    | none =>
      rw [hnone]
      exact (List.length_take _ _).trans_le (min_le_left _ _)
  · subst he; exact hnone runs

/-- Witness for C6: a concrete API result with one matching run, one
wrong-name run and one non-failure run, plus the error case. -/
theorem fetch_recent_failures_spec_witness :
    fetch_recent_failures
        (some [{ name := some "CI", conclusion := some "failure",
                 head_branch := some "main" },
               { name := some "Nightly", conclusion := some "failure" },
               { name := some "CI", conclusion := some "success" }])
        none
      = ((([{ name := some "CI", conclusion := some "failure",
              head_branch := some "main" },
            { name := some "Nightly", conclusion := some "failure" },
            { name := some "CI", conclusion := some "success" }] : List Run).filter
          (fun r => r.name == some "CI" && r.conclusion == some "failure")).map
            mkFailure).take 10
    ∧ fetch_recent_failures none (some "boom") = [] :=
  ⟨(fetch_recent_failures_spec
      (some [{ name := some "CI", conclusion := some "failure",
               head_branch := some "main" },
             { name := some "Nightly", conclusion := some "failure" },
             { name := some "CI", conclusion := some "success" }]) none).2.2 rfl,
   (fetch_recent_failures_spec none (some "boom")).2.1 "boom" rfl⟩

/-- A property of the counters holding for every entry survives one
iteration of the runner loop, provided it holds for fresh zero entries
and is preserved by the online-increment (which only fires when the
runner's status is exactly "online"). -/
theorem runnerStep_pres (P : GroupCounts → Prop)
    (gs : List (String × GroupCounts)) (r : Runner)
    (h : ∀ p ∈ gs, P p.2) (h0 : P ⟨0, 0⟩)
    (hinc : r.status = some "online" → ∀ c, P c →
      P ⟨if r.busy then c.busy + 1 else c.busy, c.total + 1⟩) :
    ∀ p ∈ runnerStep gs r, P p.2 := by
  intro p hp
  have hens : ∀ p ∈ (if gs.any (fun q => q.1 = r.group.getD "Other") then gs
      else gs ++ [(r.group.getD "Other", (⟨0, 0⟩ : GroupCounts))]), P p.2 := by
    intro q hq
    split at hq
    · exact h q hq
    · rcases List.mem_append.1 hq with hq | hq
      · exact h q hq
      · simp at hq; rw [hq]; exact h0
  unfold runnerStep at hp
  split at hp
  · rcases List.mem_map.1 hp with ⟨q, hq, hpq⟩
    by_cases hk : q.1 = r.group.getD "Other"
    · rw [← hpq]; simp only [hk, if_pos]
      exact hinc (by assumption) q.2 (hens q hq)
    · rw [← hpq]; simp only [hk, if_neg, if_false]
      exact hens q hq
  · exact hens p hp

/-- Lifts `runnerStep_pres` through the whole fold building
`runner_groups`. -/
theorem runnerGroupsOf_pres (P : GroupCounts → Prop) (runners : List Runner)
    (h0 : P ⟨0, 0⟩)
    (hinc : ∀ r ∈ runners, r.status = some "online" → ∀ c, P c →
      P ⟨if r.busy then c.busy + 1 else c.busy, c.total + 1⟩) :
    ∀ p ∈ runnerGroupsOf runners, P p.2 := by
  suffices haux : ∀ (l : List Runner) (acc : List (String × GroupCounts)),
      (∀ r ∈ l, r.status = some "online" → ∀ c, P c →
        P ⟨if r.busy then c.busy + 1 else c.busy, c.total + 1⟩) →
      (∀ p ∈ acc, P p.2) → ∀ p ∈ l.foldl runnerStep acc, P p.2 by
    exact haux runners [] hinc (by simp)
  intro l
  induction l with
  | nil => intro acc _ hacc; simpa using hacc
  | cons r rest ih =>
    intro acc hl hacc
    simp only [List.foldl_cons]
    exact ih (runnerStep acc r)
      (fun q hq => hl q (List.mem_cons_of_mem r hq))
      (runnerStep_pres P acc r hacc h0 (hl r (List.mem_cons_self r rest)))

/-- Extracts the `runner_groups` component of a successfully recorded
snapshot. -/
theorem record_snapshot_runner_groups (d : QueueData) (ts : String)
    (snap : Snap) (hs : record_snapshot (some d) ts = some snap) :
    snap.runner_groups = runnerGroupsOf (d.self_hosted_runners.getD []) := by
  simp only [record_snapshot] at hs
  split at hs
  · exact absurd hs (by simp)
  · injection hs with h
    exact (congrArg Snap.runner_groups h).symm

/-- C1 (amended): offline runners contribute nothing to the counters of
`runner_groups` — when every runner's status differs from "online", every
group entry of the recorded snapshot has `busy = 0` and `total = 0`. The
mapping is however not empty in that case: the loop creates a zero entry
for each runner's group before checking its status (see the
counterexample to the claim as stated). -/
theorem record_snapshot_offline_zero (d : QueueData) (ts : String)
    (snap : Snap) (hs : record_snapshot (some d) ts = some snap)
    (hoff : ∀ r ∈ d.self_hosted_runners.getD [], r.status ≠ some "online") :
    ∀ p ∈ snap.runner_groups, p.2.busy = 0 ∧ p.2.total = 0 := by
  rw [record_snapshot_runner_groups d ts snap hs]
  exact runnerGroupsOf_pres (fun c => c.busy = 0 ∧ c.total = 0)
    (d.self_hosted_runners.getD []) ⟨rfl, rfl⟩
    (fun r hr hon => absurd hon (hoff r hr))

/-- Counterexample to C1 as stated: for a document whose runner list
contains only offline runners, the snapshot's `runner_groups` mapping is
NOT empty — the offline runner's group is present, with zero counters. -/
theorem record_snapshot_offline_not_empty :
    ((offlineDoc.self_hosted_runners.getD []).all
      (fun r => !(r.status == some "online"))) = true
    ∧ (record_snapshot (some offlineDoc) "2025-01-01T00:00:00Z").map
        Snap.runner_groups = some [("Other", ⟨0, 0⟩)]
    ∧ (record_snapshot (some offlineDoc) "2025-01-01T00:00:00Z").map
        Snap.runner_groups ≠ some [] :=
  ⟨by decide, by decide, by decide⟩

/-- Witness for C1 (amended) at the concrete all-offline document. -/
theorem record_snapshot_offline_zero_witness :
    (("Other", (⟨0, 0⟩ : GroupCounts)) : String × GroupCounts).2.busy = 0
    ∧ (("Other", (⟨0, 0⟩ : GroupCounts)) : String × GroupCounts).2.total = 0 :=
  record_snapshot_offline_zero offlineDoc "2025-01-01T00:00:00Z"
    { timestamp := "2025-01-01T00:00:00Z",
      runner_groups := [("Other", ⟨0, 0⟩)] }
    (by decide) (by decide) ("Other", ⟨0, 0⟩) (by decide)

/-- C9: every group entry of a recorded snapshot satisfies
`busy ≤ total` (and `0 ≤ busy` holds by construction: the counters are
naturals, incremented from 0). -/
theorem record_snapshot_busy_le_total (d : QueueData) (ts : String)
    (snap : Snap) (hs : record_snapshot (some d) ts = some snap) :
    ∀ p ∈ snap.runner_groups, p.2.busy ≤ p.2.total := by
  rw [record_snapshot_runner_groups d ts snap hs]
  refine runnerGroupsOf_pres (fun c => c.busy ≤ c.total)
    (d.self_hosted_runners.getD []) (Nat.le_refl 0) ?_
  intro r _ _ c hc
  dsimp only
  split
  · exact Nat.succ_le_succ hc
  · exact Nat.le_succ_of_le hc

/-- Witness for C9 at the concrete document: the recorded group entry is
`busy = 1 ≤ total = 2`. -/
theorem record_snapshot_busy_le_total_witness :
    (("Linux GPU (GCP)", (⟨1, 2⟩ : GroupCounts)) : String × GroupCounts).2.busy
      ≤ (("Linux GPU (GCP)", (⟨1, 2⟩ : GroupCounts)) : String × GroupCounts).2.total :=
  record_snapshot_busy_le_total busyDoc "2025-01-01T00:00:00Z"
    { timestamp := "2025-01-01T00:00:00Z",
      runner_groups := [("Linux GPU (GCP)", ⟨1, 2⟩)] }
    (by decide) ("Linux GPU (GCP)", ⟨1, 2⟩) (by decide)

/-- C2: in the runner-status table, an online GCP GPU runner whose
current-job descriptor carries a (non-empty) url gets its job cell
rendered as a hyperlink to that url around the job label, and the whole
row embeds that anchor; with no url the cell is exactly the bare label,
unlinked. -/
theorem renderRunnerRow_job_link (r : Runner) (j : Job)
    (_hon : r.status = some "online")
    (_hg : isGcpGpuGroup (r.group.getD "Other") = true)
    (hj : r.job = some j) :
    (j.html_url ≠ "" →
      jobInfo r.job
        = "<a href=\"" ++ j.html_url ++ "\" target=\"_blank\">"
            ++ jobLabel j ++ "</a>"
      ∧ renderRunnerRow r
        = ("<tr><td>" ++ r.name.getD "" ++ "</td><td>" ++ stateBadge r.busy
            ++ "</td><td>")
          ++ ("<a href=\"" ++ j.html_url ++ "\" target=\"_blank\">"
              ++ jobLabel j ++ "</a>")
          ++ "</td></tr>\n")
    ∧ (j.html_url = "" →
      jobInfo r.job = jobLabel j
      ∧ renderRunnerRow r
        = ("<tr><td>" ++ r.name.getD "" ++ "</td><td>" ++ stateBadge r.busy
            ++ "</td><td>")
          ++ jobLabel j ++ "</td></tr>\n") := by
  constructor
  · intro hurl
    have hinfo : jobInfo r.job
        = "<a href=\"" ++ j.html_url ++ "\" target=\"_blank\">"
            ++ jobLabel j ++ "</a>" := by
      rw [hj]; simp [jobInfo, hurl]
    exact ⟨hinfo, by rw [renderRunnerRow, hinfo]⟩
  · intro hurl
    have hinfo : jobInfo r.job = jobLabel j := by
      rw [hj]; simp [jobInfo, hurl]
    exact ⟨hinfo, by rw [renderRunnerRow, hinfo]⟩

/-- Witness for C2: one online GCP GPU runner with a linked job and one
with an unlinked job. -/
theorem renderRunnerRow_job_link_witness :
    (jobInfo (some linkedJob)
      = "<a href=\"" ++ linkedJob.html_url ++ "\" target=\"_blank\">"
          ++ jobLabel linkedJob ++ "</a>")
    ∧ jobInfo (some unlinkedJob) = jobLabel unlinkedJob :=
  ⟨((renderRunnerRow_job_link linkedRunner linkedJob rfl (by decide) rfl).1
      (by decide)).1,
   ((renderRunnerRow_job_link unlinkedRunner unlinkedJob rfl (by decide)
      rfl).2 rfl).1⟩

/-- The per-snapshot value read for group `g` agrees with the
absent-means-zero reading: the group's stored online total when the
group is present, 0 when it is absent. -/
theorem runnerSeries_value (s : Snap) (g : String) :
    ((s.runner_groups.lookup g).map GroupCounts.total).getD 0
      = match s.runner_groups.lookup g with
        | some c => c.total
        | none => 0 := by
  cases h : s.runner_groups.lookup g <;> simp [h]

/-- C8: `build_history_chart` of the empty snapshot list is exactly the
placeholder message (no chart markup is produced); for any snapshot
list the runner-VM series of a group has, at position i, that group's
online total at snapshot i — 0 when the group is absent there — and the
x-axis labels are the HH:MM (positions 11-16) substrings of the
timestamps; and for any non-empty list the output embeds, for each of
the two fixed GCP VM groups, a dataset with exactly that series, plus
the label list and the four summary-counter series. -/
theorem build_history_chart_spec :
    build_history_chart [] = noHistoryPlaceholder
    ∧ (∀ (snaps : List Snap) (g : String) (i : Nat),
        (runnerSeries snaps g)[i]?
          = (snaps[i]?).map (fun s =>
              match s.runner_groups.lookup g with
              | some c => c.total
              | none => 0))
    ∧ (∀ (snaps : List Snap) (i : Nat),
        (chartLabels snaps)[i]?
          = (snaps[i]?).map (fun s => strSlice s.timestamp 11 16))
    ∧ (∀ (s : Snap) (rest : List Snap),
        build_history_chart (s :: rest)
          = chartSeg1 ++ jsonStrList (chartLabels (s :: rest)) ++ chartSeg2
            ++ ("[" ++ (dumpDataset "Linux GPU (GCP)"
                  (runnerSeries (s :: rest) "Linux GPU (GCP)")
                ++ ", " ++ dumpDataset "Windows GPU (GCP)"
                  (runnerSeries (s :: rest) "Windows GPU (GCP)")) ++ "]")
            ++ chartSeg3 ++ jsonStrList (chartLabels (s :: rest))
            ++ chartSeg4 ++ jsonIntList ((s :: rest).map Snap.runs_in_progress)
            ++ chartSeg5 ++ jsonIntList ((s :: rest).map Snap.runs_queued)
            ++ chartSeg6 ++ jsonStrList (chartLabels (s :: rest))
            ++ chartSeg7 ++ jsonIntList ((s :: rest).map Snap.jobs_queued)
            ++ chartSeg8 ++ jsonIntList ((s :: rest).map Snap.jobs_running)
            ++ chartSeg9) := by
  refine ⟨rfl, fun snaps g i => ?_, fun snaps i => ?_, fun s rest => ?_⟩
  · rw [runnerSeries, List.getElem?_map]
    cases snaps[i]? with
    | none => rfl
    | some s => simp [runnerSeries_value]
  · rw [chartLabels, List.getElem?_map]
  · rfl

end CIHealth
